import Mathlib

/-!
Verification development for the PDF chat assistant (src/app.py).

The program is a single orchestration script: PDF upload handling
(process_pdf, create_vectorstore, add_to_vectorstore, the Process PDF
button handler), the question handler built around a conversational
retrieval chain, and the Clear Chat History handler, all operating on
Streamlit session state (messages, vectorstore, chat_history,
pdf_documents, memory).

Pure parts of app.py are translated directly.  Behaviour that lives in
external libraries (the langchain text splitter, the Chroma vector
store, the retrieval chain and its memory handling) is not present in
the repository, so those parts are modelled from the specification, as
flagged in the doc comments of the corresponding definitions.  Extracted
page text is represented as `List Char`; machine details (embedding
vectors, real-valued distances) are abstracted by an opaque scoring
function passed as a parameter.
-/

namespace PdfChat

/-- One chunk of extracted text together with its provenance metadata,
as attached in process_pdf: `page_number` (1-based) and `source_file`
(the uploaded file name). -/
structure Passage where
  page_content : List Char
  page_number : Nat
  source_file : String
deriving DecidableEq

/-- Registry entry stored in st.session_state.pdf_documents:
`num_pages` and `num_chunks` as computed in the Process PDF handler. -/
structure DocRecord where
  num_pages : Nat
  num_chunks : Nat
deriving DecidableEq

/-- A source citation shown with an assistant answer: page number,
source file and a 300-character snippet of the cited passage
(app.py lines 228-236). -/
structure Citation where
  page : Nat
  file : String
  snippet : List Char
deriving DecidableEq

/-- One entry of st.session_state.messages.  User messages and
error messages carry no "sources" key; successful assistant messages
carry the citation list. -/
structure Message where
  role : String
  content : String
  sources : Option (List Citation)
deriving DecidableEq

/-- Modelled from the spec: the Chroma collection is an opaque persistent
index holding inserted passages under identifiers.  The uuid4 / Chroma
identifier supply is modelled as a monotone counter `nextId`, so that a
freshly minted identifier is distinct from every identifier already in
use, which is what the spec asserts of the globally-unique uuid4 ids. -/
structure Vectorstore where
  entries : List (Nat × Passage)
  nextId : Nat
deriving DecidableEq

/-- Well-formedness of the modelled store: every identifier already
inserted is below the counter, hence fresh identifiers never collide. -/
def StoreWF (vs : Vectorstore) : Prop :=
  ∀ p ∈ vs.entries, p.1 < vs.nextId

instance (vs : Vectorstore) : Decidable (StoreWF vs) := by
  unfold StoreWF; infer_instance

/-- The Streamlit session state initialised at app.py lines 52-62:
messages, vectorstore, chat_history, pdf_documents, memory.  Memory is
`none` until first used (and after Clear Chat History); its content is
the ordered list of (question, answer) pairs held by the conversation
buffer. -/
structure SessionState where
  messages : List Message
  vectorstore : Option Vectorstore
  chat_history : List (String × String)
  pdf_documents : List (String × DocRecord)
  memory : Option (List (String × String))
deriving DecidableEq

/-- The conversational context held by the memory: an uninitialised
memory (`none`) contributes the empty context. -/
def memContext (m : Option (List (String × String))) : List (String × String) :=
  m.getD []

/-- Chunk size fixed at 1000 characters (app.py line 83). -/
def chunkSize : Nat := 1000

/-- Chunk overlap fixed at 200 characters (app.py line 84). -/
def chunkOverlap : Nat := 200

/-- Modelled from the spec: the recursive character text splitter is
external library code, so the Chunker is modelled from spec section 4.1
as a sliding-window splitter with target size `chunkSize` and overlap
`chunkOverlap`: each chunk takes the next `chunkSize` characters and the
window advances by `chunkSize - chunkOverlap`; empty input yields the
empty sequence, not an error. -/
def chunkText (text : List Char) : List (List Char) :=
  if text.length ≤ chunkSize then
    if text.isEmpty then [] else [text]
  else
    text.take chunkSize :: chunkText (text.drop (chunkSize - chunkOverlap))
termination_by text.length
decreasing_by
  simp only [List.length_drop]
  simp only [chunkSize, chunkOverlap] at *
  omega

/-- The per-page documents built in process_pdf (app.py lines 76-79):
page i (0-based position among the extracted pages) gets
page_number = i + 1 and source_file = the uploaded file name. -/
def pagesWithMeta (pages : List (List Char)) (fileName : String) : List Passage :=
  pages.enum.map fun p => { page_content := p.2, page_number := p.1 + 1, source_file := fileName }

/-- Splitting a list of page documents into chunks: each page text is
chunked and every chunk inherits the metadata of its page (spec
section 4.1; the library splitter copies each document's metadata onto
its chunks). -/
def split_documents (docs : List Passage) : List Passage :=
  docs.flatMap fun d => (chunkText d.page_content).map fun c => { d with page_content := c }

/-- process_pdf (app.py lines 64-93): extract pages, attach page_number
and source_file metadata, split into chunks of size 1000 with overlap
200.  The PDF loading itself is external; this function receives the
extracted page texts. -/
def process_pdf (pages : List (List Char)) (fileName : String) : List Passage :=
  split_documents (pagesWithMeta pages fileName)

/-- Modelled from the spec: create_vectorstore (app.py lines 95-109)
delegates to Chroma.from_documents, which mints a fresh identifier per
document and rejects an empty insertion batch (spec section 7: an empty
document is surfaced as a rejection of the upload). -/
def create_vectorstore (documents : List Passage) : Except String Vectorstore :=
  if documents.isEmpty then
    .error "Expected IDs to be a non-empty list"
  else
    .ok { entries := documents.enum, nextId := documents.length }

/-- add_to_vectorstore (app.py lines 111-115): mints one fresh
identifier per document (uuid4, modelled by the counter) and inserts the
documents into the existing collection.  Modelled from the spec: the
underlying Chroma insertion rejects an empty batch. -/
def add_to_vectorstore (vs : Vectorstore) (documents : List Passage) :
    Except String Vectorstore :=
  if documents.isEmpty then
    .error "Expected IDs to be a non-empty list"
  else
    .ok { entries := vs.entries ++ documents.enum.map fun p => (vs.nextId + p.1, p.2),
          nextId := vs.nextId + documents.length }

/-- Modelled from the spec: similarity search of the retriever built in
get_qa_chain with search_kwargs k = 3.  The embedding of the query and
the vector distance are abstracted into an opaque score `dist` (distance
of each stored passage to the query embedding); retrieval returns the k
stored passages of smallest distance, nearest first. -/
def retrieve (vs : Vectorstore) (dist : Passage → Nat) (k : Nat) : List Passage :=
  ((vs.entries.map Prod.snd).mergeSort fun a b => decide (dist a ≤ dist b)).take k

/-- The citation record built from one retrieved source document
(app.py lines 228-236): page_number, source_file and the first
300 characters of the passage text. -/
def mkSource (p : Passage) : Citation :=
  { page := p.page_number, file := p.source_file, snippet := p.page_content.take 300 }

/-- Python dict insertion for st.session_state.pdf_documents: an
existing key is overwritten in place, a new key is appended. -/
def dictInsert : List (String × DocRecord) → String → DocRecord → List (String × DocRecord)
  | [], k, v => [(k, v)]
  | (k', v') :: rest, k, v =>
    if k' = k then (k, v) :: rest else (k', v') :: dictInsert rest k v

/-- Python dict lookup for st.session_state.pdf_documents. -/
def dictLookup : List (String × DocRecord) → String → Option DocRecord
  | [], _ => none
  | (k', v') :: rest, k => if k' = k then some v' else dictLookup rest k

/-- The registry entry computed in the Process PDF handler (app.py
lines 168-171): number of distinct page numbers among the chunks, and
number of chunks. -/
def docRecord (chunks : List Passage) : DocRecord :=
  { num_pages := (chunks.map (·.page_number)).dedup.length,
    num_chunks := chunks.length }

/-- The Process PDF button handler (app.py lines 153-176).  PDF
extraction is external and may fail on corrupt input, so its outcome is
passed in as `extract`.  On any exception the handler shows an error and
leaves the session state untouched; on success it stores the new
vectorstore and upserts the registry entry, reporting the chunk count. -/
def processUpload (s : SessionState) (fileName : String)
    (extract : Except String (List (List Char))) :
    SessionState × Except String Nat :=
  match extract with
  | .error e => (s, .error ("Error processing PDF: " ++ e))
  | .ok pages =>
    let chunks := process_pdf pages fileName
    let vsResult := match s.vectorstore with
      | none => create_vectorstore chunks
      | some vs => add_to_vectorstore vs chunks
    match vsResult with
    | .error e => (s, .error ("Error processing PDF: " ++ e))
    | .ok vs' =>
      ({ s with
          vectorstore := some vs',
          pdf_documents := dictInsert s.pdf_documents fileName (docRecord chunks) },
        .ok chunks.length)

/-- The Clear Chat History handler (app.py lines 186-190): messages and
chat_history are emptied and memory is set back to None; the
vectorstore and the document registry are not touched. -/
def clearChat (s : SessionState) : SessionState :=
  { s with messages := [], chat_history := [], memory := none }

/-- The question handler (app.py lines 193-258).  It only runs when a
vectorstore exists (line 193 gate).  The user turn is appended first;
get_qa_chain then initialises the memory if it is None, and the chain
call is modelled by its two external outcomes: `llm` is the answer text
on success, or the exception text on failure.  Modelled from the spec:
on success the chain appends the (question, answer) pair to the memory;
on failure the memory content is untouched (spec section 4.5 step 5 and
its failure clause).  The handler then appends the assistant turn: the
answer with its source citations, or the error description without a
sources key (app.py lines 246-258). -/
def askQuestion (s : SessionState) (dist : Passage → Nat) (prompt : String)
    (llm : Except String String) : SessionState :=
  match s.vectorstore with
  | none => s
  | some vs =>
    let msgs1 := s.messages ++ [{ role := "user", content := prompt, sources := none }]
    let mem0 := memContext s.memory
    match llm with
    | .ok answer =>
      let sources := (retrieve vs dist 3).map mkSource
      { s with
          messages := msgs1 ++
            [{ role := "assistant", content := answer, sources := some sources }],
          memory := some (mem0 ++ [(prompt, answer)]) }
    | .error e =>
      { s with
          messages := msgs1 ++
            [{ role := "assistant", content := "Error generating response: " ++ e,
               sources := none }],
          memory := some mem0 }

/-! ### Lemmas about the chunker -/

theorem chunkText_nil : chunkText [] = [] := by
  rw [chunkText]; simp [chunkSize]

theorem chunkText_head (t : List Char) (h : t ≠ []) :
    (chunkText t).head? = some (t.take chunkSize) := by
  rw [chunkText]
  split
  · simp only [List.isEmpty_iff, if_neg h, List.head?_cons]
    rw [List.take_of_length_le]
    omega
  · rfl

theorem chunkText_short (t : List Char) (h0 : t ≠ []) (h1 : t.length ≤ chunkSize) :
    chunkText t = [t] := by
  rw [chunkText, if_pos h1]
  simp [List.isEmpty_iff, h0]

theorem dictLookup_dictInsert (l : List (String × DocRecord)) (k : String) (v : DocRecord) :
    dictLookup (dictInsert l k v) k = some v := by
  induction l with
  | nil => simp [dictInsert, dictLookup]
  | cons p rest ih =>
    obtain ⟨k', v'⟩ := p
    by_cases h : k' = k
    · simp [dictInsert, dictLookup, h]
    · simp [dictInsert, dictLookup, h, ih]

/-! ### Sample inputs used by the witnesses -/

def samplePassage : Passage :=
  { page_content := ['a'], page_number := 1, source_file := "doc.pdf" }

def sampleStore : Vectorstore := { entries := [(0, samplePassage)], nextId := 1 }

def sampleState : SessionState :=
  { messages := [], vectorstore := some sampleStore, chat_history := [],
    pdf_documents := [], memory := none }

def zeroDist : Passage → Nat := fun _ => 0

def sampleQ : String := "What is this about"

def sampleAns : String := "It is about a"

def sampleErr : String := "RateLimitError"

def sampleFile : String := "doc.pdf"

/-! ### The claims -/

/-- Claim C1: if the language-model call raised while answering a
question, the conversation memory context after the failed call equals
its context before the call — no (question, answer) pair is recorded —
even though the handler appends an assistant turn carrying the error
description to the displayed transcript. -/
theorem llm_failure_leaves_memory_unchanged (s : SessionState) (dist : Passage → Nat)
    (prompt e : String) (vs : Vectorstore) (hvs : s.vectorstore = some vs) :
    memContext (askQuestion s dist prompt (.error e)).memory = memContext s.memory ∧
    (askQuestion s dist prompt (.error e)).messages =
      s.messages ++
        [{ role := "user", content := prompt, sources := none },
         { role := "assistant", content := "Error generating response: " ++ e,
           sources := none }] := by
  simp [askQuestion, hvs, memContext]

/-- Witness for claim C1 at a concrete session state and error. -/
theorem llm_failure_leaves_memory_unchanged_witness :
    sampleState.vectorstore = some sampleStore ∧
    (memContext (askQuestion sampleState zeroDist sampleQ (.error sampleErr)).memory =
        memContext sampleState.memory ∧
      (askQuestion sampleState zeroDist sampleQ (.error sampleErr)).messages =
        sampleState.messages ++
          [{ role := "user", content := sampleQ, sources := none },
           { role := "assistant", content := "Error generating response: " ++ sampleErr,
             sources := none }]) :=
  ⟨rfl, llm_failure_leaves_memory_unchanged sampleState zeroDist sampleQ sampleErr
    sampleStore rfl⟩

/-- Claim C4: the Clear Chat History handler resets exactly the
displayed transcript (and legacy chat_history) and the conversation
memory, and leaves the vectorstore and the document registry unchanged,
so a later question still retrieves from the previously built index. -/
theorem clear_chat_resets_only_transcript_and_memory (s : SessionState) :
    (clearChat s).messages = [] ∧
    (clearChat s).chat_history = [] ∧
    memContext (clearChat s).memory = [] ∧
    (clearChat s).vectorstore = s.vectorstore ∧
    (clearChat s).pdf_documents = s.pdf_documents :=
  ⟨rfl, rfl, rfl, rfl, rfl⟩

/-- Claim C10: a submitted question (possible only when a vectorstore
exists) appends exactly two entries to the transcript, in order: a user
turn carrying the question, then an assistant turn — on success the
answer with its source citations, on failure the error description with
no sources key.  The transcript never ends in an unanswered user turn. -/
theorem question_appends_user_then_assistant (s : SessionState) (dist : Passage → Nat)
    (prompt : String) (r : Except String String) (vs : Vectorstore)
    (hvs : s.vectorstore = some vs) :
    (askQuestion s dist prompt r).messages =
      s.messages ++
        [{ role := "user", content := prompt, sources := none },
         match r with
         | .ok answer =>
           { role := "assistant", content := answer,
             sources := some ((retrieve vs dist 3).map mkSource) }
         | .error e =>
           { role := "assistant", content := "Error generating response: " ++ e,
             sources := none }] := by
  cases r <;> simp [askQuestion, hvs]

/-- Witness for claim C10 at a concrete session state and a successful
model answer. -/
theorem question_appends_user_then_assistant_witness :
    sampleState.vectorstore = some sampleStore ∧
    (askQuestion sampleState zeroDist sampleQ (.ok sampleAns)).messages =
      sampleState.messages ++
        [{ role := "user", content := sampleQ, sources := none },
         { role := "assistant", content := sampleAns,
           sources := some ((retrieve sampleStore zeroDist 3).map mkSource) }] :=
  ⟨rfl, question_appends_user_then_assistant sampleState zeroDist sampleQ
    (.ok sampleAns) sampleStore rfl⟩

/-- Claim C9: a PDF whose extracted text is empty chunks to the empty
sequence of passages rather than raising an error; the chunker is a
total function by construction. -/
theorem empty_extracted_text_chunks_to_nothing (pages : List (List Char))
    (fileName : String) (h : ∀ t ∈ pages, t = []) :
    process_pdf pages fileName = [] ∧ chunkText [] = [] := by
  refine ⟨?_, chunkText_nil⟩
  unfold process_pdf split_documents pagesWithMeta
  rw [List.flatMap_eq_nil_iff]
  intro d hd
  rw [List.mem_map] at hd
  obtain ⟨q, hq, rfl⟩ := hd
  have hq2 : q.2 ∈ pages := by
    have := List.mem_enum_iff_getElem?.1 hq
    exact List.getElem?_mem this
  simp [h q.2 hq2, chunkText_nil]

/-- Witness for claim C9 on a two-page document with empty text. -/
theorem empty_extracted_text_chunks_to_nothing_witness :
    (∀ t ∈ [([] : List Char), []], t = []) ∧
    (process_pdf [[], []] sampleFile = [] ∧ chunkText [] = []) :=
  ⟨by simp, empty_extracted_text_chunks_to_nothing [[], []] sampleFile (by simp)⟩

/-- Claim C5: an upload whose PDF is corrupt or unreadable (the
extraction fails) or whose extracted content chunks to nothing (an
empty document) is rejected with an error, and the whole session
state — vectorstore, registry, transcript, memory — is unchanged; in
particular an empty document produces neither a success result nor a
registry entry. -/
theorem failed_upload_leaves_state_unchanged (s : SessionState) (fileName : String)
    (ext : Except String (List (List Char)))
    (h : match ext with
         | .error _ => True
         | .ok pages => process_pdf pages fileName = []) :
    (processUpload s fileName ext).1 = s ∧
    ∃ e, (processUpload s fileName ext).2 = .error e := by
  cases ext with
  | error e => exact ⟨rfl, _, rfl⟩
  | ok pages =>
    have h' : process_pdf pages fileName = [] := h
    cases hvs : s.vectorstore with
    | none => simp [processUpload, h', create_vectorstore, hvs]
    | some vs => simp [processUpload, h', add_to_vectorstore, hvs]

/-- Witness for claim C5 on a one-page document with empty text. -/
theorem failed_upload_leaves_state_unchanged_witness :
    process_pdf [[]] sampleFile = [] ∧
    ((processUpload sampleState sampleFile (.ok [[]])).1 = sampleState ∧
      ∃ e, (processUpload sampleState sampleFile (.ok [[]])).2 = .error e) := by
  have hEmpty : process_pdf [[]] sampleFile = [] := by
    simp [process_pdf, split_documents, pagesWithMeta, chunkText_nil]
  exact ⟨hEmpty,
    failed_upload_leaves_state_unchanged sampleState sampleFile (.ok [[]]) hEmpty⟩

/-- Every pair in the enumeration of a list has first component below
the length of the list. -/
theorem mem_enum_fst_lt {α : Type} {l : List α} {q : Nat × α} (hq : q ∈ l.enum) :
    q.1 < l.length := by
  have := List.mem_enum_iff_getElem?.1 hq
  obtain ⟨hlt, -⟩ := List.getElem?_eq_some_iff.1 this
  exact hlt

/-- Claim C7: every passage produced by chunking carries a 1-based page
number among the extracted pages and a source-file identifier equal to
the uploaded file name, which is non-empty whenever the file name is;
the provenance fields are fixed at creation (the embedding is purely
functional, and the index and citation builders only read them). -/
theorem passage_provenance (pages : List (List Char)) (fileName : String)
    (p : Passage) (hp : p ∈ process_pdf pages fileName) :
    1 ≤ p.page_number ∧ p.page_number ≤ pages.length ∧
    p.source_file = fileName ∧ (fileName ≠ "" → p.source_file ≠ "") := by
  unfold process_pdf split_documents pagesWithMeta at hp
  rw [List.mem_flatMap] at hp
  obtain ⟨d, hd, hpd⟩ := hp
  rw [List.mem_map] at hd
  obtain ⟨q, hq, rfl⟩ := hd
  rw [List.mem_map] at hpd
  obtain ⟨c, -, rfl⟩ := hpd
  have h1 : q.1 < pages.length := mem_enum_fst_lt hq
  refine ⟨by simp, by simp; omega, rfl, fun hf => hf⟩

/-- Witness for claim C7 on a one-page document with one character. -/
theorem passage_provenance_witness :
    samplePassage ∈ process_pdf [['a']] sampleFile ∧
    (1 ≤ samplePassage.page_number ∧ samplePassage.page_number ≤ [['a']].length ∧
      samplePassage.source_file = sampleFile ∧
      (sampleFile ≠ "" → samplePassage.source_file ≠ "")) := by
  have hc : chunkText ['a'] = [['a']] := chunkText_short _ (by simp) (by simp [chunkSize])
  have hmem : samplePassage ∈ process_pdf [['a']] sampleFile := by
    simp [process_pdf, split_documents, pagesWithMeta, hc, samplePassage, sampleFile]
  exact ⟨hmem, passage_provenance [['a']] sampleFile samplePassage hmem⟩

/-- Shape of a successful upload when no vectorstore exists yet. -/
theorem processUpload_ok_none (s : SessionState) (fileName : String)
    (pages : List (List Char)) (hvs : s.vectorstore = none)
    (h : process_pdf pages fileName ≠ []) :
    processUpload s fileName (.ok pages) =
      ({ s with
          vectorstore := some
            { entries := (process_pdf pages fileName).enum,
              nextId := (process_pdf pages fileName).length },
          pdf_documents :=
            dictInsert s.pdf_documents fileName (docRecord (process_pdf pages fileName)) },
        .ok (process_pdf pages fileName).length) := by
  simp [processUpload, hvs, create_vectorstore, h]

/-- Shape of a successful upload when a vectorstore already exists. -/
theorem processUpload_ok_some (s : SessionState) (fileName : String)
    (pages : List (List Char)) (vs : Vectorstore) (hvs : s.vectorstore = some vs)
    (h : process_pdf pages fileName ≠ []) :
    processUpload s fileName (.ok pages) =
      ({ s with
          vectorstore := some
            { entries := vs.entries ++
                (process_pdf pages fileName).enum.map fun p => (vs.nextId + p.1, p.2),
              nextId := vs.nextId + (process_pdf pages fileName).length },
          pdf_documents :=
            dictInsert s.pdf_documents fileName (docRecord (process_pdf pages fileName)) },
        .ok (process_pdf pages fileName).length) := by
  simp [processUpload, hvs, add_to_vectorstore, h]

/-- Claim C8: a successful upload upserts one registry entry keyed by
the file name, whose num_pages is the number of distinct page numbers
among the produced chunks and whose num_chunks is the number of
produced chunks; a same-named re-upload overwrites the registry entry
wholesale, while the passages already in the index are not removed. -/
theorem upload_upserts_registry (s : SessionState) (fileName : String)
    (pages : List (List Char)) (h : process_pdf pages fileName ≠ []) :
    (processUpload s fileName (.ok pages)).1.pdf_documents =
      dictInsert s.pdf_documents fileName (docRecord (process_pdf pages fileName)) ∧
    dictLookup (processUpload s fileName (.ok pages)).1.pdf_documents fileName =
      some (docRecord (process_pdf pages fileName)) ∧
    docRecord (process_pdf pages fileName) =
      { num_pages := ((process_pdf pages fileName).map (·.page_number)).dedup.length,
        num_chunks := (process_pdf pages fileName).length } ∧
    (∀ vs, s.vectorstore = some vs →
      ∃ vs', (processUpload s fileName (.ok pages)).1.vectorstore = some vs' ∧
        vs'.entries.take vs.entries.length = vs.entries) := by
  cases hvs : s.vectorstore with
  | none =>
    rw [processUpload_ok_none s fileName pages hvs h]
    refine ⟨rfl, dictLookup_dictInsert _ _ _, rfl, ?_⟩
    intro vs hvs'
    cases hvs'
  | some vs =>
    rw [processUpload_ok_some s fileName pages vs hvs h]
    refine ⟨rfl, dictLookup_dictInsert _ _ _, rfl, ?_⟩
    intro vs0 hvs'
    cases hvs'
    exact ⟨_, rfl, List.take_left _ _⟩

/-- Witness for claim C8 on a one-page document uploaded into a session
that already holds a vectorstore. -/
theorem upload_upserts_registry_witness :
    process_pdf [['a']] sampleFile ≠ [] ∧
    ((processUpload sampleState sampleFile (.ok [['a']])).1.pdf_documents =
      dictInsert sampleState.pdf_documents sampleFile
        (docRecord (process_pdf [['a']] sampleFile)) ∧
    dictLookup (processUpload sampleState sampleFile (.ok [['a']])).1.pdf_documents
        sampleFile = some (docRecord (process_pdf [['a']] sampleFile)) ∧
    docRecord (process_pdf [['a']] sampleFile) =
      { num_pages := ((process_pdf [['a']] sampleFile).map (·.page_number)).dedup.length,
        num_chunks := (process_pdf [['a']] sampleFile).length } ∧
    (∀ vs, sampleState.vectorstore = some vs →
      ∃ vs', (processUpload sampleState sampleFile (.ok [['a']])).1.vectorstore = some vs' ∧
        vs'.entries.take vs.entries.length = vs.entries)) := by
  have hc : chunkText ['a'] = [['a']] := chunkText_short _ (by simp) (by simp [chunkSize])
  have hne : process_pdf [['a']] sampleFile ≠ [] := by
    simp [process_pdf, split_documents, pagesWithMeta, hc]
  exact ⟨hne, upload_upserts_registry sampleState sampleFile [['a']] hne⟩

/-- Fresh identifiers minted for an extension batch: the first
components of the appended entries, shifted copies of the batch
enumeration. -/
theorem extension_ids_eq (c : Nat) (docs : List Passage) :
    ((docs.enum.map fun p => (c + p.1, p.2)).map Prod.fst) =
      (List.range docs.length).map (c + ·) := by
  rw [List.map_map, ← List.enum_map_fst docs, List.map_map]
  rfl

/-- The passages of an extension batch are the batch itself. -/
theorem extension_snd_eq (c : Nat) (docs : List Passage) :
    ((docs.enum.map fun p => (c + p.1, p.2)).map Prod.snd) = docs := by
  rw [List.map_map]
  have hf : (Prod.snd ∘ fun p : Nat × Passage => (c + p.1, p.2)) = Prod.snd := by
    funext p
    rfl
  rw [hf, List.enum_map_snd]

/-- Claim C3: inserting a batch of passages assigns each a fresh
identifier, distinct from every identifier already in the store and
from each other, and never modifies or removes a previously inserted
passage: every entry present before is still present afterwards.  The
same holds on the create path of the first upload. -/
theorem index_insertion_fresh_and_additive (vs : Vectorstore) (docs : List Passage)
    (hwf : StoreWF vs) (hne : docs ≠ []) :
    (∃ vs', add_to_vectorstore vs docs = .ok vs' ∧
      vs'.entries.take vs.entries.length = vs.entries ∧
      (∀ e ∈ vs.entries, e ∈ vs'.entries) ∧
      ((vs'.entries.drop vs.entries.length).map Prod.fst).Nodup ∧
      (∀ i ∈ (vs'.entries.drop vs.entries.length).map Prod.fst,
        ∀ j ∈ vs.entries.map Prod.fst, i ≠ j) ∧
      (vs'.entries.drop vs.entries.length).map Prod.snd = docs ∧
      StoreWF vs') ∧
    (∃ vs₀, create_vectorstore docs = .ok vs₀ ∧
      (vs₀.entries.map Prod.fst).Nodup ∧
      vs₀.entries.map Prod.snd = docs ∧
      StoreWF vs₀) := by
  have hE : docs.isEmpty = false := by simpa using hne
  constructor
  · refine ⟨{ entries := vs.entries ++ docs.enum.map fun p => (vs.nextId + p.1, p.2),
              nextId := vs.nextId + docs.length },
      by simp [add_to_vectorstore, hE], ?_, ?_, ?_, ?_, ?_, ?_⟩
    · exact List.take_left _ _
    · exact fun e he => List.mem_append_left _ he
    · rw [List.drop_left, extension_ids_eq]
      exact ((List.nodup_range _).map fun a b hab => by omega)
    · rw [List.drop_left, extension_ids_eq]
      intro i hi j hj
      rw [List.mem_map] at hi hj
      obtain ⟨k, hk, rfl⟩ := hi
      obtain ⟨e, he, rfl⟩ := hj
      have := hwf e he
      omega
    · rw [List.drop_left, extension_snd_eq]
    · intro p hp
      rw [List.mem_append] at hp
      rcases hp with hp | hp
      · have := hwf p hp
        simp only []
        omega
      · rw [List.mem_map] at hp
        obtain ⟨q, hq, rfl⟩ := hp
        have := mem_enum_fst_lt hq
        simp only []
        omega
  · refine ⟨{ entries := docs.enum, nextId := docs.length },
      by simp [create_vectorstore, hE], ?_, ?_, ?_⟩
    · rw [List.enum_map_fst]
      exact List.nodup_range _
    · exact List.enum_map_snd docs
    · intro p hp
      exact mem_enum_fst_lt hp

/-- Witness for claim C3 on a well-formed one-entry store and a
one-passage batch. -/
theorem index_insertion_fresh_and_additive_witness :
    StoreWF sampleStore ∧ [samplePassage] ≠ [] ∧
    ((∃ vs', add_to_vectorstore sampleStore [samplePassage] = .ok vs' ∧
      vs'.entries.take sampleStore.entries.length = sampleStore.entries ∧
      (∀ e ∈ sampleStore.entries, e ∈ vs'.entries) ∧
      ((vs'.entries.drop sampleStore.entries.length).map Prod.fst).Nodup ∧
      (∀ i ∈ (vs'.entries.drop sampleStore.entries.length).map Prod.fst,
        ∀ j ∈ sampleStore.entries.map Prod.fst, i ≠ j) ∧
      (vs'.entries.drop sampleStore.entries.length).map Prod.snd = [samplePassage] ∧
      StoreWF vs') ∧
    (∃ vs₀, create_vectorstore [samplePassage] = .ok vs₀ ∧
      (vs₀.entries.map Prod.fst).Nodup ∧
      vs₀.entries.map Prod.snd = [samplePassage] ∧
      StoreWF vs₀)) :=
  ⟨by decide, by simp,
    index_insertion_fresh_and_additive sampleStore [samplePassage] (by decide) (by simp)⟩

/-- Claim C6: retrieval with the fixed k = 3 returns at most three
passages, fewer than three exactly when the index holds fewer, and
returns them ordered by non-decreasing distance to the query
embedding. -/
theorem retrieve_returns_at_most_k_sorted (vs : Vectorstore) (dist : Passage → Nat) :
    (retrieve vs dist 3).length = min 3 vs.entries.length ∧
    List.Sorted (fun a b => dist a ≤ dist b) (retrieve vs dist 3) := by
  constructor
  · simp [retrieve]
  · have hp : List.Pairwise (fun a b => dist a ≤ dist b)
        ((vs.entries.map Prod.snd).mergeSort fun a b => decide (dist a ≤ dist b)) := by
      refine List.Pairwise.imp ?_ (List.sorted_mergeSort ?_ ?_ (vs.entries.map Prod.snd))
      · intro a b hab
        simpa using hab
      · intro a b c h1 h2
        simp only [decide_eq_true_iff] at h1 h2 ⊢
        omega
      · intro a b
        simp only [Bool.or_eq_true, decide_eq_true_iff]
        exact Nat.le_total _ _
    exact List.Pairwise.sublist (List.take_sublist _ _) hp

/-- Claim C2: in the modelled chunking with chunk size 1000 and overlap
200, any two consecutive chunks of one page text overlap in at least
200 characters: every chunk with a successor is exactly 1000 characters
long, its successor is longer than 200 characters, and the final 200
characters of the former are precisely the first 200 characters of the
latter.  A text shorter than one chunk yields at most one chunk, for
which the condition is vacuous. -/
theorem chunk_overlap_chain (text : List Char) :
    List.Chain'
      (fun a b => a.length = chunkSize ∧ chunkOverlap < b.length ∧
        a.drop (chunkSize - chunkOverlap) = b.take chunkOverlap)
      (chunkText text) := by
  induction text using chunkText.induct with
  | case1 t h he =>
    rw [chunkText, if_pos h, if_pos he]
    exact List.chain'_nil
  | case2 t h he =>
    rw [chunkText, if_pos h, if_neg he]
    exact List.chain'_singleton _
  | case3 t h ih =>
    rw [chunkText, if_neg h]
    refine List.chain'_cons'.2 ⟨?_, ih⟩
    intro y hy
    have hlen : chunkSize < t.length := by omega
    have hne : t.drop (chunkSize - chunkOverlap) ≠ [] := by
      simp only [ne_eq, ← List.length_eq_zero, List.length_drop]
      simp only [chunkSize, chunkOverlap] at hlen ⊢
      omega
    rw [chunkText_head _ hne, Option.mem_some_iff] at hy
    subst hy
    refine ⟨?_, ?_, ?_⟩
    · simp only [List.length_take]
      simp only [chunkSize] at hlen ⊢
      omega
    · simp only [List.length_take, List.length_drop]
      simp only [chunkSize, chunkOverlap] at hlen ⊢
      omega
    · rw [List.take_take]
      have h1 : min chunkOverlap chunkSize = chunkOverlap := by
        simp [chunkSize, chunkOverlap]
      rw [h1]
      have h2 := List.take_drop (chunkSize - chunkOverlap) chunkOverlap t
      have h3 : chunkSize - chunkOverlap + chunkOverlap = chunkSize := by
        simp [chunkSize, chunkOverlap]
      rw [h3] at h2
      exact h2.symm

end PdfChat
